import Mathlib

/-!
Verification of the Kaspa bridge envelope codec
(`generate-script.js` / `parse-script.js`).

Bytes are modelled as `List Nat` (each element an octet value 0..255).
Builder functions that can throw are modelled with `Except BuildErr`;
the parser with `Except ParseErr`.  Hex-string parameters
(`l2Address`, `signatureRS`) are modelled by their decoded byte lists,
since `hexToBytes` is a bijection between well-formed even-length hex
strings and byte lists; strings are modelled with `String`, and
`strBytes` maps a string to its byte sequence (code points, which agree
with the UTF-8 bytes produced by `TextEncoder` on the ASCII data the
scripts carry).
-/

namespace KatBridge

set_option maxRecDepth 40000

/-- Byte sequence of a string: code points of its characters.  Agrees with
`TextEncoder`'s UTF-8 output on ASCII strings, which is all the repository
produces. -/
def strBytes (s : String) : List Nat := s.data.map Char.toNat

/-- The ASCII marker tag `"kasplex"` searched for by the parser and written
by the builder. -/
def kasBytes : List Nat := strBytes "kasplex"

/-! ## Compact-binary (CBOR) fallback encoder, from `generate-script.js`
lines 21-91 (the in-repository encoder used when the external `cbor-x`
library is unavailable). -/

/-- Non-negative integer encoding of the fallback `cborEncode`
(`generate-script.js` lines 24-36): direct byte below 24, then tagged
1/2/4-byte big-endian forms; integers of 2^32 or more fall through to the
final `Unsupported CBOR type` throw, modelled as `none`. -/
def cborEncodeNat (v : Nat) : Option (List Nat) :=
  if v < 24 then some [v]
  else if v < 256 then some [0x18, v]
  else if v < 65536 then some [0x19, v / 256, v % 256]
  else if v < 4294967296 then
    some [0x1a, v / 16777216 % 256, v / 65536 % 256, v / 256 % 256, v % 256]
  else none

/-- Byte-string encoding of the fallback `cborEncode`
(`generate-script.js` lines 38-54): header `0x40 | len`, `0x58 len`, or
`0x59 hi lo`, then the raw bytes; 65536 bytes or more throw
`Data too large for CBOR` (modelled as `none`). -/
def cborEncodeBytes (b : List Nat) : Option (List Nat) :=
  if b.length < 24 then some ((0x40 + b.length) :: b)
  else if b.length < 256 then some (0x58 :: b.length :: b)
  else if b.length < 65536 then some (0x59 :: b.length / 256 :: b.length % 256 :: b)
  else none

/-- Text-key encoding used for map entries by the fallback `cborEncode`
(`generate-script.js` lines 63-72): header `0x60 | len` or `0x78 len`,
then the key bytes; 256 bytes or more throw `Key too long for CBOR`. -/
def cborKey (k : String) : Option (List Nat) :=
  let kb := strBytes k
  if kb.length < 24 then some ((0x60 + kb.length) :: kb)
  else if kb.length < 256 then some (0x78 :: kb.length :: kb)
  else none

/-- The fallback `cborEncode` applied to the routing-blob object
`\x7bv, c, l, s\x7d` built in `buildOptimalExtraAndContent`
(`generate-script.js` lines 137-144).  `Object.entries` iterates the four
keys in insertion order `v, c, l, s`; the map header is
`0xa0 | entries.length = 0xa4` (line 58). -/
def cborEncodeBlob (v c : Nat) (l s : List Nat) : Option (List Nat) :=
  match cborKey "v", cborEncodeNat v, cborKey "c", cborEncodeNat c,
        cborKey "l", cborEncodeBytes l, cborKey "s", cborEncodeBytes s with
  | some kv, some ev, some kc, some ec, some kl, some el, some ks, some es =>
      some (0xa4 :: (kv ++ ev ++ kc ++ ec ++ kl ++ el ++ ks ++ es))
  | _, _, _, _, _, _, _, _ => none

/-! ## Transfer-descriptor JSON, from `buildKrc20TransferJSON`
(`generate-script.js` lines 125-129). -/

/-- Token descriptor passed to the builder: `mode` selects between the
`tick` field (otherwise) and the `ca` field (`"issue"` mode); the unused
field is ignored, matching the JS object that carries only one of them. -/
structure TokenDesc where
  mode : String
  tick : String
  ca : String
deriving DecidableEq

/-- A JSON string literal (no escaping; the repository's field values are
plain ASCII without quotes or backslashes, for which `JSON.stringify`
emits exactly this form). -/
def jsonQuote (s : String) : String := "\"" ++ s ++ "\""

/-- One `"key":"value"` JSON member. -/
def jsonMember (k v : String) : String := jsonQuote k ++ ":" ++ jsonQuote v

/-- `buildKrc20TransferJSON` (`generate-script.js` lines 125-129):
`JSON.stringify` of `\x7bp, op, amt, to\x7d` with `ca` appended in
`"issue"` mode and `tick` otherwise, keys in insertion order. -/
def buildKrc20TransferJSON (token : TokenDesc) (amount : Nat) (toAddr : String) : String :=
  let base := jsonMember "p" "krc-20" ++ "," ++ jsonMember "op" "transfer" ++ ","
      ++ jsonMember "amt" (toString amount) ++ "," ++ jsonMember "to" toAddr
  let full := if token.mode == "issue" then base ++ "," ++ jsonMember "ca" token.ca
              else base ++ "," ++ jsonMember "tick" token.tick
  "\x7b" ++ full ++ "\x7d"

/-! ## Envelope builder, from `generate-script.js` lines 150-264. -/

/-- Builder failures; each constructor models one `throw new Error(...)`
site of `generate-script.js`. -/
inductive BuildErr where
  /-- `<name> is required` (lines 239-245). -/
  | missingParam (name : String)
  /-- `address must be 20 bytes` (line 121). -/
  | addrNot20
  /-- `signature must be 64 bytes (r+s without v)` (line 135). -/
  | sigNot64
  /-- `Unsupported CBOR type` / `Data too large for CBOR` /
  `Key too long for CBOR` from the fallback encoder. -/
  | cborUnsupported
  /-- `Extra data too large` (line 170). -/
  | extraTooLarge
  /-- `Content too large` (line 183). -/
  | contentTooLarge
  /-- `envelope too large (>520 bytes)` (line 197). -/
  | envelopeTooLarge
  /-- `pubkey must be 33-byte compressed or 32-byte x-only` (line 205). -/
  | pubkeyInvalid
  /-- `Public key too large` (line 216). -/
  | pubkeyTooLarge
  /-- `redeem exceeds 520-byte limit` (line 232). -/
  | redeemTooLarge
deriving DecidableEq

/-- Push-length prefix written by `buildEnvelopeSuffix` for both lanes
(`generate-script.js` lines 165-171 and 178-184, identical logic): a
direct length byte up to 0x4b, `0x4c` plus one length byte up to 0xff,
and `none` (the lane's `too large` throw) beyond that. -/
def encodePushLen (n : Nat) : Option (List Nat) :=
  if n ≤ 0x4b then some [n]
  else if n ≤ 0xff then some [0x4c, n]
  else none

/-- A payload with its push-length prefix, `encodePushLen` permitting
(used only to state theorems about assembled scripts). -/
def pushFrame (b : List Nat) : List Nat :=
  match encodePushLen b.length with
  | some f => f ++ b
  | none => []

/-- The suffix byte string `buildEnvelopeSuffix` assembles (its `parts`
array concatenated, `generate-script.js` lines 152-195) before the
520-byte check; stated separately so the size-ceiling claim can speak
about the assembled envelope. -/
def envAssembled (extra content : List Nat) : List Nat :=
  [0x00, 0x63, 0x07] ++ kasBytes ++
    (if 0 < extra.length then 0x51 :: pushFrame extra else []) ++
    [0x00] ++ pushFrame content ++ [0x68]

/-- `buildEnvelopeSuffix` (`generate-script.js` lines 150-199):
`OP_FALSE OP_IF 0x07 "kasplex"`, the optional `0x51`-marked framed EXTRA
lane, the `0x00`-marked framed CONTENT lane, `OP_ENDIF`; fails if a lane
exceeds 255 bytes or the suffix exceeds 520 bytes. -/
def buildEnvelopeSuffix (extra content : List Nat) : Except BuildErr (List Nat) :=
  match (if 0 < extra.length then
          match encodePushLen extra.length with
          | none => Except.error BuildErr.extraTooLarge
          | some f => Except.ok (0x51 :: (f ++ extra))
         else Except.ok []) with
  | Except.error e => Except.error e
  | Except.ok extraPart =>
    match encodePushLen content.length with
    | none => Except.error BuildErr.contentTooLarge
    | some cf =>
      let suffix := [0x00, 0x63, 0x07] ++ kasBytes ++ extraPart ++ [0x00] ++ cf ++ content ++ [0x68]
      if 520 < suffix.length then Except.error BuildErr.envelopeTooLarge
      else Except.ok suffix

/-- The x-only form of a public key as computed by `buildSingleSigRedeem`
(`generate-script.js` line 207): strip the leading parity byte of a
33-byte compressed key, keep a 32-byte key as is. -/
def pkX (pubkey : List Nat) : List Nat :=
  if pubkey.length == 33 then pubkey.tail else pubkey

/-- `buildSingleSigRedeem` (`generate-script.js` lines 201-234): the
length-framed x-only public key push, `OP_CHECKSIG` (`0xac`), then the
envelope suffix; fails on an invalid key shape or a redeem script over
520 bytes. -/
def buildSingleSigRedeem (pubkey envelopeSuffix : List Nat) : Except BuildErr (List Nat) :=
  let isCompressed := pubkey.length == 33 &&
    (pubkey.head? == some 0x02 || pubkey.head? == some 0x03)
  let isXOnly := pubkey.length == 32
  if !(isCompressed || isXOnly) then Except.error BuildErr.pubkeyInvalid
  else
    let pubkeyXOnly := if isCompressed then pubkey.tail else pubkey
    if pubkeyXOnly.length ≤ 0x4b then
      let redeem := pubkeyXOnly.length :: (pubkeyXOnly ++ [0xac] ++ envelopeSuffix)
      if 520 < redeem.length then Except.error BuildErr.redeemTooLarge
      else Except.ok redeem
    else Except.error BuildErr.pubkeyTooLarge

/-- Parameter record of `generateBridgeScript`.  `none` models an absent
(or otherwise falsy) parameter: `publicKey` and `token` are JS objects,
truthy whenever present; `l2Address` and `signatureRS` are hex strings,
modelled by their decoded bytes, with the falsy empty string mapped to
`none`; `chainId` and `amount` are numbers whose value `0` is itself
falsy; `toAddr` is a string whose empty value is falsy. -/
structure BridgeParams where
  publicKey : Option (List Nat)
  chainId : Option Nat
  l2Address : Option (List Nat)
  signatureRS : Option (List Nat)
  token : Option TokenDesc
  amount : Option Nat
  toAddr : Option String
deriving DecidableEq

/-- All-present parameter record. -/
def mkParams (pk : List Nat) (cid : Nat) (l2 sig : List Nat) (tok : TokenDesc)
    (amt : Nat) (toA : String) : BridgeParams :=
  ⟨some pk, some cid, some l2, some sig, some tok, some amt, some toA⟩

/-- `generateBridgeScript` (`generate-script.js` lines 237-264): reject
falsy required parameters in source order, validate the field lengths,
CBOR-encode the routing blob `\x7bv:1, c, l, s\x7d`, render the KRC-20
JSON, and assemble envelope and redeem script. -/
def generateBridgeScript (p : BridgeParams) : Except BuildErr (List Nat) :=
  match p.publicKey with
  | none => Except.error (BuildErr.missingParam "publicKey")
  | some pk =>
  match p.chainId with
  | none => Except.error (BuildErr.missingParam "chainId")
  | some cid =>
  if cid == 0 then Except.error (BuildErr.missingParam "chainId") else
  match p.l2Address with
  | none => Except.error (BuildErr.missingParam "l2Address")
  | some l2 =>
  match p.signatureRS with
  | none => Except.error (BuildErr.missingParam "signatureRS")
  | some sig =>
  match p.token with
  | none => Except.error (BuildErr.missingParam "token")
  | some tok =>
  match p.amount with
  | none => Except.error (BuildErr.missingParam "amount")
  | some amt =>
  if amt == 0 then Except.error (BuildErr.missingParam "amount") else
  match p.toAddr with
  | none => Except.error (BuildErr.missingParam "to")
  | some toA =>
  if toA == "" then Except.error (BuildErr.missingParam "to") else
  if l2.length != 20 then Except.error BuildErr.addrNot20 else
  if sig.length != 64 then Except.error BuildErr.sigNot64 else
  match cborEncodeBlob 1 cid l2 sig with
  | none => Except.error BuildErr.cborUnsupported
  | some extra =>
    let content := strBytes (buildKrc20TransferJSON tok amt toA)
    match buildEnvelopeSuffix extra content with
    | Except.error e => Except.error e
    | Except.ok suffix => buildSingleSigRedeem pk suffix

/-! ## Envelope parser, from `parse-script.js` lines 34-295. -/

/-- Parser failures; each constructor models one `throw new Error(...)`
site of `parse-script.js`. -/
inductive ParseErr where
  /-- `Kasplex envelope not found in signature script` (line 58). -/
  | markerNotFound
  /-- `EXTRA marker (0x51) not found` (line 72). -/
  | extraMarkerNotFound
  /-- `Unexpected end of script` (line 80). -/
  | unexpectedEnd
  /-- `OP_PUSHDATA1 missing length byte` (line 92). -/
  | pushData1Missing
  /-- `OP_PUSHDATA2 missing length bytes` (line 98). -/
  | pushData2Missing
  /-- `Unsupported push opcode: 0x..` (line 103). -/
  | unsupportedOpcode (b : Nat)
  /-- `EXTRA data extends beyond script boundary` (line 109). -/
  | extraOutOfBounds
  /-- `CONTENT OP_PUSHDATA1 missing length byte` (line 242). -/
  | contentPushData1Missing
  /-- `CONTENT OP_PUSHDATA2 missing length bytes` (line 248). -/
  | contentPushData2Missing
  /-- `CONTENT unsupported push opcode: 0x..` (line 253). -/
  | contentUnsupportedOpcode (b : Nat)
deriving DecidableEq

/-- Push-length decode failures shared by the two lanes
(`parse-script.js` lines 83-104 and 232-254, identical logic). -/
inductive PushErr where
  | missingLen1
  | missingLen2
  | unsupported (b : Nat)
  /-- Unreachable from `parseScript`: both lanes check that the length
  byte exists before decoding. -/
  | emptyInput
deriving DecidableEq

/-- Push-length prefix decoder (`parse-script.js` lines 83-104): reads a
length byte at the head of `rest`; values up to `0x4b` are the length,
`0x4c` takes the next byte, `0x4d` the next two little-endian; returns
the decoded length and the number of prefix bytes consumed. -/
def decodePushLen (rest : List Nat) : Except PushErr (Nat × Nat) :=
  match rest with
  | [] => Except.error PushErr.emptyInput
  | lb :: r =>
    if lb ≤ 0x4b then Except.ok (lb, 1)
    else if lb == 0x4c then
      match r with
      | [] => Except.error PushErr.missingLen1
      | n :: _ => Except.ok (n, 2)
    else if lb == 0x4d then
      match r with
      | n0 :: n1 :: _ => Except.ok (n0 + 256 * n1, 3)
      | _ => Except.error PushErr.missingLen2
    else Except.error (PushErr.unsupported lb)

/-- EXTRA-lane rendering of `PushErr` into the thrown errors of
`parse-script.js` lines 80-103. -/
def extraPushErr : PushErr → ParseErr
  | PushErr.missingLen1 => ParseErr.pushData1Missing
  | PushErr.missingLen2 => ParseErr.pushData2Missing
  | PushErr.unsupported b => ParseErr.unsupportedOpcode b
  | PushErr.emptyInput => ParseErr.unexpectedEnd

/-- CONTENT-lane rendering of `PushErr` into the thrown errors of
`parse-script.js` lines 241-253. -/
def contentPushErr : PushErr → ParseErr
  | PushErr.missingLen1 => ParseErr.contentPushData1Missing
  | PushErr.missingLen2 => ParseErr.contentPushData2Missing
  | PushErr.unsupported b => ParseErr.contentUnsupportedOpcode b
  | PushErr.emptyInput => ParseErr.unexpectedEnd

/-- Scan of the `"kasplex"` marker loop (`parse-script.js` lines 43-55):
`suffix` is `s` with the first `i` bytes dropped, and `limit` is
`s.length - 7`; the loop runs only while `i` is strictly below the
limit, so a match starting at index `s.length - 7` is never tested. -/
def findKasAux (limit : Nat) : List Nat → Nat → Option Nat
  | [], _ => none
  | b :: rest, i =>
    if limit ≤ i then none
    else if kasBytes.isPrefixOf (b :: rest) then some i
    else findKasAux limit rest (i + 1)

/-- Index of the first `"kasplex"` occurrence found by the scan loop of
`parse-script.js` lines 40-55 (condition `i < length - 7`). -/
def findKasplex (s : List Nat) : Option Nat :=
  findKasAux (s.length - 7) s 0

/-- Linear scan for one byte value from an index (`parse-script.js`
lines 67-69 and 221-223): first index at or past `start` holding
`target`, if any. -/
def scanByteAux (target : Nat) : List Nat → Nat → Option Nat
  | [], _ => none
  | b :: rest, i =>
    if b == target then some i else scanByteAux target rest (i + 1)

/-- Absolute-index form of `scanByteAux`. -/
def scanByte (s : List Nat) (target start : Nat) : Option Nat :=
  scanByteAux target (s.drop start) start

/-- Decoded routing information for the EXTRA lane
(`parse-script.js` lines 123-218). -/
inductive RoutingInfo where
  /-- First byte `0xb9`: the script treats the bytes as the optimized
  CBOR format and hands them to the external `cbor-js` decoder (lines
  133-194); the decode itself is library code outside this repository,
  so only the raw bytes are recorded. -/
  | cborDetected (raw : List Nat)
  /-- Legacy fixed-layout decode (lines 198-210): version byte, two
  little-endian 32-bit words, 20 address bytes. -/
  | legacy (version chainId bridgeId : Nat) (l2Address : List Nat)
  /-- `EXTRA data too short to parse bridge routing info` (lines 211-214). -/
  | tooShort (raw : List Nat)
deriving DecidableEq

/-- EXTRA-lane classification and decode (`parse-script.js` lines
127-215): CBOR only when the first byte is exactly `0xb9`, else the
legacy layout when at least 29 bytes are available, else undecodable.
The little-endian words reproduce `DataView.getUint32(_, true)` at byte
offsets 1 and 5. -/
def parseExtraRouting (e : List Nat) : RoutingInfo :=
  if e.head? == some 0xb9 then RoutingInfo.cborDetected e
  else if 29 ≤ e.length then
    RoutingInfo.legacy (e.getD 0 0)
      (e.getD 1 0 + 256 * e.getD 2 0 + 65536 * e.getD 3 0 + 16777216 * e.getD 4 0)
      (e.getD 5 0 + 256 * e.getD 6 0 + 65536 * e.getD 7 0 + 16777216 * e.getD 8 0)
      ((e.drop 9).take 20)
  else RoutingInfo.tooShort e

/-- Outcome of the CONTENT lane (`parse-script.js` lines 220-283). -/
inductive ContentInfo where
  /-- No `0x00` marker after the EXTRA lane, or the marker is the final
  byte: the script logs a warning and finishes without content. -/
  | absent
  /-- The declared length runs past the script end (line 280): a logged
  warning, not a thrown error, and no content bytes are produced. -/
  | outOfBounds (declaredLen : Nat)
  /-- Extracted content bytes (lines 259-260). -/
  | present (bytes : List Nat)
deriving DecidableEq

/-- Result of a successful parse: the routing decode of the EXTRA lane
and the CONTENT-lane outcome. -/
structure ParseResult where
  routing : RoutingInfo
  content : ContentInfo
deriving DecidableEq

/-- EXTRA-lane extraction (`parse-script.js` lines 40-114): marker scan,
`0x51` scan, push-length decode, bounds check; yields the lane's bytes
and the index just past them. -/
def extraStage (s : List Nat) : Except ParseErr (List Nat × Nat) :=
  match findKasplex s with
  | none => Except.error ParseErr.markerNotFound
  | some kas =>
    match scanByte s 0x51 (kas + 7) with
    | none => Except.error ParseErr.extraMarkerNotFound
    | some m =>
      let pos := m + 1
      if s.length ≤ pos then Except.error ParseErr.unexpectedEnd
      else
        match decodePushLen (s.drop pos) with
        | Except.error e => Except.error (extraPushErr e)
        | Except.ok (extraLen, k) =>
          if s.length < pos + k + extraLen then Except.error ParseErr.extraOutOfBounds
          else Except.ok (((s.drop (pos + k)).take extraLen), pos + k + extraLen)

/-- CONTENT-lane extraction (`parse-script.js` lines 220-283): `0x00`
scan from `pos`; a missing marker or a marker at the final byte yields
`absent`; push-length decode errors are thrown; a declared length past
the script end degrades to `outOfBounds`. -/
def contentStage (s : List Nat) (pos : Nat) : Except ParseErr ContentInfo :=
  match scanByte s 0x00 pos with
  | none => Except.ok ContentInfo.absent
  | some cm =>
    let p := cm + 1
    if s.length ≤ p then Except.ok ContentInfo.absent
    else
      match decodePushLen (s.drop p) with
      | Except.error e => Except.error (contentPushErr e)
      | Except.ok (n, k) =>
        if p + k + n ≤ s.length then Except.ok (ContentInfo.present ((s.drop (p + k)).take n))
        else Except.ok (ContentInfo.outOfBounds n)

/-- Full parse (`parse-script.js` lines 34-295): extract and classify
the EXTRA lane, then extract the CONTENT lane; routing undecodability
never aborts the content extraction. -/
def parseScript (s : List Nat) : Except ParseErr ParseResult :=
  match extraStage s with
  | Except.error e => Except.error e
  | Except.ok (extraData, pos) =>
    match contentStage s pos with
    | Except.error e => Except.error e
    | Except.ok c => Except.ok ⟨parseExtraRouting extraData, c⟩

deriving instance DecidableEq for Except

/-! ## Concrete inputs used to evaluate the pipeline. -/

/-- A 32-byte x-only public key. -/
def c1Pk : List Nat := List.replicate 32 7

/-- A 20-byte destination address `0x0102...14`. -/
def c1Addr : List Nat := (List.range 20).map (· + 1)

/-- A 64-byte signature. -/
def c1Sig : List Nat := List.range 64

/-- A mint-mode token descriptor for ticker `NACHO`. -/
def c1Tok : TokenDesc := ⟨"mint", "NACHO", ""⟩

/-- A fully valid builder input (chain id 202555, all field lengths
exact). -/
def c1Params : BridgeParams := mkParams c1Pk 202555 c1Addr c1Sig c1Tok 100000000 "kaspa:qtest"

/-- The redeem script the builder produces for `c1Params`. -/
def c1Script : List Nat := (generateBridgeScript c1Params).toOption.getD []

/-- The routing blob the in-repository CBOR encoder produces for
version 1, chain id 1, an all-zero address and an all-zero signature. -/
def c2Blob : List Nat := (cborEncodeBlob 1 1 (List.replicate 20 0) (List.replicate 64 0)).getD []

/-- A script whose CONTENT lane declares 5 bytes with only 1 byte left:
`"kasplex"`, EXTRA marker, a 1-byte EXTRA lane, CONTENT marker, length
5, one remaining byte. -/
def c7Script : List Nat := kasBytes ++ [0x51, 1, 0xaa, 0x00, 5, 1]

/-- A script whose EXTRA lane declares 5 bytes with only 1 byte left. -/
def c7ExtraScript : List Nat := kasBytes ++ [0x51, 5, 1]

/-- The routing blob the builder encodes for `c1Params`. -/
def c4Extra : List Nat := (cborEncodeBlob 1 202555 c1Addr c1Sig).getD []

/-- A 29-byte EXTRA lane `[1, 2, ..., 29]` that is not a compact-binary
map. -/
def c9Extra : List Nat := (List.range 29).map (· + 1)

/-! ## Helper lemmas shared by the claim theorems. -/

/-- A successful blob encoding is nonempty: it starts with the map
header byte `0xa4`. -/
lemma cborEncodeBlob_ok_pos (v c : Nat) (l s e : List Nat)
    (h : cborEncodeBlob v c l s = some e) : 0 < e.length := by
  unfold cborEncodeBlob at h
  split at h
  · simp only [Option.some.injEq] at h
    subst h
    simp
  · simp at h

/-- Successful envelope assembly with a nonempty EXTRA lane yields the
fixed marker layout around the two framed lanes. -/
lemma buildEnvelopeSuffix_ok (extra content suffix : List Nat)
    (hne : 0 < extra.length)
    (h : buildEnvelopeSuffix extra content = Except.ok suffix) :
    suffix = [0x00, 0x63, 0x07] ++ kasBytes ++ (0x51 :: pushFrame extra) ++ [0x00] ++
      pushFrame content ++ [0x68] := by
  unfold buildEnvelopeSuffix at h
  rw [if_pos hne] at h
  cases hf : encodePushLen extra.length with
  | none => rw [hf] at h; simp at h
  | some f =>
    rw [hf] at h
    cases hc : encodePushLen content.length with
    | none => rw [hc] at h; simp at h
    | some cf =>
      rw [hc] at h
      dsimp only at h
      split at h
      · simp at h
      · simp only [Except.ok.injEq] at h
        subst h
        simp [pushFrame, hf, hc]

/-- The x-only key selected inside `buildSingleSigRedeem` agrees with
`pkX` whenever the key shape is accepted. -/
lemma pubkeyXOnly_eq_pkX (pubkey : List Nat)
    (hval : (pubkey.length == 33 &&
        (pubkey.head? == some 0x02 || pubkey.head? == some 0x03)
        || pubkey.length == 32) = true) :
    (if pubkey.length == 33 && (pubkey.head? == some 0x02 || pubkey.head? == some 0x03)
      then pubkey.tail else pubkey) = pkX pubkey := by
  unfold pkX
  by_cases h33 : pubkey.length = 33
  · have hb : (pubkey.length == 33) = true := by simp [h33]
    have hb2 : (pubkey.length == 32) = false := by simp [h33]
    simp only [hb, hb2, Bool.true_and, Bool.or_false] at hval ⊢
    simp [hval]
  · have hb : (pubkey.length == 33) = false := by simp [h33]
    simp [hb]

/-- A successful redeem assembly is the x-only key push, `0xac`, then
the envelope suffix. -/
lemma buildSingleSigRedeem_ok (pubkey suffix redeem : List Nat)
    (h : buildSingleSigRedeem pubkey suffix = Except.ok redeem) :
    redeem = (pkX pubkey).length :: (pkX pubkey ++ [0xac] ++ suffix) := by
  by_cases hcomp : (pubkey.length == 33 &&
      (pubkey.head? == some 0x02 || pubkey.head? == some 0x03)) = true
  · have h33 : (pubkey.length == 33) = true := by
      have hc2 := hcomp
      rw [Bool.and_eq_true] at hc2
      exact hc2.1
    unfold buildSingleSigRedeem at h
    simp only [hcomp, Bool.true_or, Bool.not_true, Bool.false_eq_true, if_false, if_true] at h
    split at h
    · split at h
      · simp at h
      · simp only [Except.ok.injEq] at h
        subst h
        simp [pkX, h33]
    · simp at h
  · have hcf : (pubkey.length == 33 &&
        (pubkey.head? == some 0x02 || pubkey.head? == some 0x03)) = false := by
      simpa using hcomp
    unfold buildSingleSigRedeem at h
    simp only [hcf, Bool.false_or, Bool.false_eq_true, if_false] at h
    split at h
    · simp at h
    next hxf =>
      have hx : (pubkey.length == 32) = true := by
        simpa using hxf
      have h33 : (pubkey.length == 33) = false := by
        have h32 : pubkey.length = 32 := by simpa using hx
        simp [h32]
      split at h
      · split at h
        · simp at h
        · simp only [Except.ok.injEq] at h
          subst h
          simp [pkX, h33]
      · simp at h

/-- The two-tier encoder succeeds on lengths up to 255 with the tiered
prefix. -/
lemma encodePushLen_ok (n : Nat) (h : n ≤ 255) :
    encodePushLen n = some (if n ≤ 0x4b then [n] else [0x4c, n]) := by
  unfold encodePushLen
  by_cases h1 : n ≤ 0x4b
  · simp [h1]
  · simp [h1, h]

/-- Frame shape for payloads up to 255 bytes. -/
lemma pushFrame_eq (b : List Nat) (h : b.length ≤ 255) :
    pushFrame b = (if b.length ≤ 0x4b then [b.length] else [0x4c, b.length]) ++ b := by
  rw [pushFrame, encodePushLen_ok b.length h]

/-- The marker tag is seven bytes long. -/
lemma kasBytes_length : kasBytes.length = 7 := by decide

/-- With both lanes within the 255-byte framing bound, the builder's
envelope result is exactly the assembled suffix guarded by the 520-byte
check. -/
lemma buildEnvelopeSuffix_eq (extra content : List Nat)
    (hex : extra.length ≤ 255) (hc : content.length ≤ 255) :
    buildEnvelopeSuffix extra content =
      if 520 < (envAssembled extra content).length then Except.error BuildErr.envelopeTooLarge
      else Except.ok (envAssembled extra content) := by
  unfold buildEnvelopeSuffix envAssembled
  by_cases hne : 0 < extra.length
  · rw [if_pos hne, if_pos hne, encodePushLen_ok extra.length hex,
        encodePushLen_ok content.length hc, pushFrame_eq extra hex, pushFrame_eq content hc]
    dsimp only
    simp only [List.append_assoc, List.cons_append, List.nil_append]
  · rw [if_neg hne, if_neg hne, encodePushLen_ok content.length hc, pushFrame_eq content hc]
    dsimp only
    simp only [List.append_assoc, List.cons_append, List.nil_append]

/-- The scan helper returns `none` exactly when no window strictly
below the limit matches the tag. -/
lemma findKasAux_eq_none_iff (limit : Nat) :
    ∀ (t : List Nat) (i : Nat),
      (findKasAux limit t i = none ↔
        ∀ j, i ≤ j → j < limit → ¬ kasBytes.isPrefixOf (t.drop (j - i)) = true)
  | [], i => by
    unfold findKasAux
    simp only [true_iff]
    intro j _ _
    simp [List.drop_nil]
    decide
  | b :: rest, i => by
    unfold findKasAux
    by_cases hlim : limit ≤ i
    · simp only [hlim, if_true, true_iff]
      intro j hij hjl
      omega
    · rw [if_neg hlim]
      by_cases hpre : kasBytes.isPrefixOf (b :: rest) = true
      · simp only [hpre, if_true]
        constructor
        · intro h
          exact absurd h (by simp)
        · intro h
          exact absurd hpre (by simpa using h i le_rfl (by omega))
      · rw [if_neg (by simpa using hpre)]
        rw [findKasAux_eq_none_iff limit rest (i + 1)]
        constructor
        · intro h j hij hjl
          rcases Nat.eq_or_lt_of_le hij with rfl | hlt
          · simpa using hpre
          · have hd : (b :: rest).drop (j - i) = rest.drop (j - (i + 1)) := by
              have : j - i = (j - (i + 1)) + 1 := by omega
              rw [this, List.drop_succ_cons]
            rw [hd]
            exact h j hlt hjl
        · intro h j hij hjl
          have hd : rest.drop (j - (i + 1)) = (b :: rest).drop (j - i) := by
            have : j - i = (j - (i + 1)) + 1 := by omega
            rw [this, List.drop_succ_cons]
          rw [hd]
          exact h j (by omega) hjl

/-- The marker scan fails exactly when no `"kasplex"` window starts
strictly before `length - 7`. -/
lemma findKasplex_eq_none_iff (s : List Nat) :
    findKasplex s = none ↔ ∀ i, i + 7 < s.length → (s.drop i).take 7 ≠ kasBytes := by
  unfold findKasplex
  rw [findKasAux_eq_none_iff (s.length - 7) s 0]
  have hconv : ∀ t : List Nat, (kasBytes.isPrefixOf t = true) ↔ t.take 7 = kasBytes := by
    intro t
    rw [List.isPrefixOf_iff_prefix, List.prefix_iff_eq_take, kasBytes_length]
    exact eq_comm
  constructor
  · intro h i hi
    have := h i (Nat.zero_le i) (by omega)
    rw [Nat.sub_zero] at this
    exact fun hc => this ((hconv (s.drop i)).mpr hc)
  · intro h j _ hj
    rw [Nat.sub_zero]
    have := h j (by omega)
    exact fun hc => this ((hconv (s.drop j)).mp hc)

/-- The CONTENT stage never reports the marker-missing error (its only
errors are the content-lane push-opcode errors). -/
lemma contentStage_ne_markerNotFound (s : List Nat) (pos : Nat) :
    contentStage s pos ≠ Except.error ParseErr.markerNotFound := by
  unfold contentStage
  split
  · simp
  · dsimp only
    split
    · simp
    · split
      next e heq =>
        cases e <;> simp [contentPushErr]
      next v heq =>
        split <;> simp

/-- The whole parse reports the marker-missing error exactly when the
scan fails. -/
lemma parseScript_markerNotFound_iff (s : List Nat) :
    parseScript s = Except.error ParseErr.markerNotFound ↔ findKasplex s = none := by
  constructor
  · intro h
    by_cases hf : findKasplex s = none
    · exact hf
    exfalso
    obtain ⟨k, hk⟩ := Option.ne_none_iff_exists'.mp hf
    unfold parseScript extraStage at h
    rw [hk] at h
    split at h
    next e heq =>
      simp only [Except.error.injEq] at h
      subst h
      dsimp only at heq
      split at heq
      · simp at heq
      · split at heq
        · simp at heq
        · split at heq
          next e2 heq2 =>
            cases e2 <;> simp [extraPushErr] at heq
          next v heq2 =>
            split at heq <;> simp at heq
    next extraData pos heq =>
      split at h
      next e2 heq2 =>
        simp only [Except.error.injEq] at h
        subst h
        exact contentStage_ne_markerNotFound s _ heq2
      next c heq2 =>
        simp at h
  · intro h
    unfold parseScript extraStage
    rw [h]

/-- The envelope builder's only failures are the two lane-size errors
and the envelope-size error. -/
lemma buildEnvelopeSuffix_error_cases (extra content : List Nat) (e : BuildErr)
    (h : buildEnvelopeSuffix extra content = Except.error e) :
    e = BuildErr.extraTooLarge ∨ e = BuildErr.contentTooLarge ∨ e = BuildErr.envelopeTooLarge := by
  unfold buildEnvelopeSuffix at h
  split at h
  next e2 heq =>
    simp only [Except.error.injEq] at h
    subst h
    split at heq
    · split at heq <;> simp_all
    · simp at heq
  next part heq =>
    split at h
    · simp only [Except.error.injEq] at h
      subst h
      simp
    next f heq2 =>
      dsimp only at h
      split at h
      · simp only [Except.error.injEq] at h
        subst h
        simp
      · simp at h

/-- The redeem builder's only failures are the two key-shape errors and
the redeem-size error. -/
lemma buildSingleSigRedeem_error_cases (pubkey suffix : List Nat) (e : BuildErr)
    (h : buildSingleSigRedeem pubkey suffix = Except.error e) :
    e = BuildErr.pubkeyInvalid ∨ e = BuildErr.pubkeyTooLarge ∨ e = BuildErr.redeemTooLarge := by
  unfold buildSingleSigRedeem at h
  dsimp only at h
  split at h
  · simp only [Except.error.injEq] at h
    subst h
    simp
  · split at h <;> split at h <;>
      first
      | (split at h <;> simp_all)
      | simp_all

/-! ## Claim theorems. -/

/-- C1: the round-trip claim fails on the code as shipped.  For the
fully valid input `c1Params` the builder succeeds, and the parser
recovers the transfer descriptor textually intact, but the routing blob
comes back through the legacy fixed-layout path as version `164`
(`0xa4`, the map header of the in-repository CBOR encoder), chain id
`1627485793` and a garbage address, instead of the input values
`(1, 202555, c1Addr, c1Sig)`: the parser only recognizes first byte
`0xb9` as CBOR, so the builder's `0xa4`-headed blob is never decoded as
a map. -/
theorem c1_roundTrip_failure :
    generateBridgeScript c1Params = Except.ok c1Script ∧
    parseScript c1Script = Except.ok
      ⟨RoutingInfo.legacy 164 1627485793 50338403
         [23, 59, 97, 108, 84, 1, 2, 3, 4, 5, 6, 7, 8, 9, 10, 11, 12, 13, 14, 15],
       ContentInfo.present (strBytes (buildKrc20TransferJSON c1Tok 100000000 "kaspa:qtest"))⟩ := by
  constructor
  · decide
  · decide

/-- C2 counterexample: the routing blob written by the builder's own
encoder begins with `0xa4`, the compact-binary "map of 4 entries" tag
(`0xa0 ∣ 4`, `generate-script.js` line 58), yet the parser decodes it
via the legacy fixed layout, not the compact-binary map grammar. -/
theorem c2_counterexample :
    cborEncodeBlob 1 1 (List.replicate 20 0) (List.replicate 64 0) = some c2Blob ∧
    c2Blob.head? = some 0xa4 ∧
    parseExtraRouting c2Blob =
      RoutingInfo.legacy 164 1627485793 1818296675 (84 :: List.replicate 19 0) := by
  refine ⟨by decide, by decide, by decide⟩

/-- C2 amended: the parser sends EXTRA bytes to the compact-binary map
decode exactly when their first byte is `0xb9` (a map header with
two-byte count, the form the external `cbor-x` encoder emits); bytes
beginning with the short-form map-of-4-entries tag `0xa4` are never
decoded as a map and fall to the legacy or too-short path. -/
theorem c2_amended_classification (e : List Nat) :
    (e.head? = some 0xb9 → parseExtraRouting e = RoutingInfo.cborDetected e) ∧
    (e.head? = some 0xa4 → parseExtraRouting e ≠ RoutingInfo.cborDetected e) := by
  constructor
  · intro h
    simp [parseExtraRouting, h]
  · intro h
    simp only [parseExtraRouting, h]
    norm_num
    split <;> simp

/-- C2 amended witness: the classification at `0xb9`-headed bytes and at
the builder-produced `0xa4`-headed blob. -/
theorem c2_amended_witness :
    parseExtraRouting [0xb9, 0, 4] = RoutingInfo.cborDetected [0xb9, 0, 4] ∧
    parseExtraRouting c2Blob ≠ RoutingInfo.cborDetected c2Blob :=
  ⟨(c2_amended_classification [0xb9, 0, 4]).1 (by decide),
   (c2_amended_classification c2Blob).2 (by decide)⟩

/-- C3 counterexample: the claim expects a payload length of 256 to be
encoded as `0x4d` plus two little-endian bytes, but the builder's
push-length encoder has no `OP_PUSHDATA2` tier: any length above 255
fails at encode time (the lane's `too large` error). -/
theorem c3_counterexample :
    encodePushLen 256 = none ∧
    buildEnvelopeSuffix [] (List.replicate 256 0) = Except.error BuildErr.contentTooLarge := by
  refine ⟨by decide, by decide⟩

/-- C3 amended: lengths 0, 1, 75, 76 and 255 round-trip through the
two-tier encoder (direct byte up to 75, `0x4c` plus one byte up to
255); lengths 256, 65535 and 65536 all fail at encode time with the
lane's too-large error; the parser's decoder additionally accepts the
`0x4d` two-little-endian-bytes form and yields the length back. -/
theorem c3_amended_boundaries :
    (encodePushLen 0 = some [0] ∧ decodePushLen [0] = Except.ok (0, 1)) ∧
    (encodePushLen 1 = some [1] ∧ decodePushLen [1, 9] = Except.ok (1, 1)) ∧
    (encodePushLen 75 = some [75] ∧ decodePushLen (75 :: List.replicate 75 9) = Except.ok (75, 1)) ∧
    (encodePushLen 76 = some [0x4c, 76] ∧
      decodePushLen (0x4c :: 76 :: List.replicate 76 9) = Except.ok (76, 2)) ∧
    (encodePushLen 255 = some [0x4c, 255] ∧ decodePushLen [0x4c, 255] = Except.ok (255, 2)) ∧
    encodePushLen 256 = none ∧ encodePushLen 65535 = none ∧ encodePushLen 65536 = none ∧
    decodePushLen [0x4d, 0, 1] = Except.ok (256, 3) ∧
    decodePushLen [0x4d, 255, 255] = Except.ok (65535, 3) := by
  decide

/-- C4: whenever the builder succeeds, its output is exactly the
length-framed x-only public key push, the signature-check opcode
`0xac`, the envelope bytes `0x00`, `0x63`, the length-prefixed ASCII
tag `"kasplex"`, `0x51` followed by the length-framed routing blob,
`0x00` followed by the length-framed transfer-descriptor text, and the
terminator `0x68`, in that order. -/
theorem c4_redeem_layout (pk : List Nat) (cid : Nat) (l2 sig : List Nat) (tok : TokenDesc)
    (amt : Nat) (toA : String) (extra script : List Nat)
    (hextra : cborEncodeBlob 1 cid l2 sig = some extra)
    (h : generateBridgeScript (mkParams pk cid l2 sig tok amt toA) = Except.ok script) :
    script = (pkX pk).length :: (pkX pk ++ [0xac] ++
      ([0x00, 0x63, 0x07] ++ kasBytes ++ (0x51 :: pushFrame extra) ++ [0x00] ++
        pushFrame (strBytes (buildKrc20TransferJSON tok amt toA)) ++ [0x68])) := by
  have hne : 0 < extra.length := cborEncodeBlob_ok_pos 1 cid l2 sig extra hextra
  simp only [generateBridgeScript, mkParams] at h
  rw [hextra] at h
  split at h
  · simp at h
  split at h
  · simp at h
  split at h
  · simp at h
  split at h
  · simp at h
  split at h
  · simp at h
  split at h
  next heq => simp at heq
  next extra2 heq =>
    replace heq : extra = extra2 := by simpa using heq
    subst heq
    split at h
    next e heq2 => simp at h
    next suffix heq2 =>
      rw [buildSingleSigRedeem_ok pk suffix script h,
          buildEnvelopeSuffix_ok extra (strBytes (buildKrc20TransferJSON tok amt toA)) suffix hne heq2]

/-- C5: any lanes whose assembled envelope exceeds 520 bytes make the
builder fail with the envelope size error, and any accepted public key
with an envelope suffix whose redeem script (34 bytes of key push and
`OP_CHECKSIG` plus the suffix) exceeds 520 bytes fails with the redeem
size error; both failures return an `Except.error`, never script
bytes. -/
theorem c5_size_ceiling :
    (∀ extra content : List Nat, extra.length ≤ 255 → content.length ≤ 255 →
      520 < (envAssembled extra content).length →
      buildEnvelopeSuffix extra content = Except.error BuildErr.envelopeTooLarge) ∧
    (∀ pubkey suffix : List Nat,
      (pubkey.length = 32 ∨ pubkey.length = 33 ∧
        (pubkey.head? = some 0x02 ∨ pubkey.head? = some 0x03)) →
      520 < 34 + suffix.length →
      buildSingleSigRedeem pubkey suffix = Except.error BuildErr.redeemTooLarge) := by
  constructor
  · intro extra content hex hc hbig
    rw [buildEnvelopeSuffix_eq extra content hex hc, if_pos hbig]
  · intro pubkey suffix hval hbig
    unfold buildSingleSigRedeem
    rcases hval with h32 | ⟨h33, hh⟩
    · have hcf : (pubkey.length == 33 &&
          (pubkey.head? == some 0x02 || pubkey.head? == some 0x03)) = false := by
        simp [h32]
      have hx : (pubkey.length == 32) = true := by simp [h32]
      simp only [hcf, hx, Bool.false_or, Bool.not_true, Bool.false_eq_true, if_false]

      split
      next h75 =>
        split
        · rfl
        next hlt =>
          exfalso
          simp only [List.length_cons, List.length_append] at hlt
          omega
      next h75 =>
        exfalso
        exact h75 (by omega)
    · have hct : (pubkey.length == 33 &&
          (pubkey.head? == some 0x02 || pubkey.head? == some 0x03)) = true := by
        rcases hh with hh | hh <;> simp [h33, hh]
      simp only [hct, Bool.true_or, Bool.not_true, Bool.false_eq_true, if_false, if_true]

      have htail : pubkey.tail.length = 32 := by
        simp [List.length_tail, h33]
      split
      next h75 =>
        split
        · rfl
        next hlt =>
          exfalso
          simp only [List.length_cons, List.length_append, htail] at hlt
          omega
      next h75 =>
        exfalso
        exact h75 (by omega)

/-- C5 witness: a 250-byte EXTRA lane with a 255-byte CONTENT lane
assembles to 522 bytes and is rejected, and a 487-byte suffix behind a
32-byte key yields a 521-byte redeem script and is rejected. -/
theorem c5_size_ceiling_witness :
    buildEnvelopeSuffix (List.replicate 250 1) (List.replicate 255 2) =
      Except.error BuildErr.envelopeTooLarge ∧
    buildSingleSigRedeem (List.replicate 32 9) (List.replicate 487 0) =
      Except.error BuildErr.redeemTooLarge :=
  ⟨c5_size_ceiling.1 (List.replicate 250 1) (List.replicate 255 2)
      (by decide) (by decide) (by decide),
   c5_size_ceiling.2 (List.replicate 32 9) (List.replicate 487 0)
      (Or.inl (by decide)) (by decide)⟩

/-- C6 counterexample: the 7-byte script that is exactly the tag
`"kasplex"` contains an occurrence of the tag (starting at index 0 and
ending at the final byte), yet parsing reports the marker as missing,
because the scan loop's bound `i < length - 7` never tests that
window. -/
theorem c6_counterexample :
    (kasBytes.drop 0).take 7 = kasBytes ∧ 0 + 7 ≤ kasBytes.length ∧
    parseScript kasBytes = Except.error ParseErr.markerNotFound := by
  refine ⟨by decide, by decide, by decide⟩

/-- C6 amended: parsing fails with the marker-missing error exactly
when no occurrence of `"kasplex"` starts strictly before
`length - 7`; in particular an occurrence whose last byte is the final
byte of the script (start index `length - 7`) is never found. -/
theorem c6_marker_scan (s : List Nat) :
    parseScript s = Except.error ParseErr.markerNotFound ↔
      ∀ i, i + 7 < s.length → (s.drop i).take 7 ≠ kasBytes := by
  rw [parseScript_markerNotFound_iff, findKasplex_eq_none_iff]

/-- C6 witness: a three-byte tag-free script fails with the
marker-missing error, via the amended characterization. -/
theorem c6_marker_scan_witness :
    parseScript [] = Except.error ParseErr.markerNotFound :=
  (c6_marker_scan []).mpr (fun _ hi => absurd hi (by simp))

/-- C7 counterexample: a script whose CONTENT lane declares five bytes
with only one remaining parses successfully, reporting the content as
out-of-bounds (the logged warning), instead of failing with a
content-bounds error. -/
theorem c7_counterexample :
    parseScript c7Script =
      Except.ok ⟨RoutingInfo.tooShort [0xaa], ContentInfo.outOfBounds 5⟩ := by
  decide

/-- C7 amended: when a content marker and decodable length prefix are
present but the declared length runs past the script end, the CONTENT
stage succeeds with the out-of-bounds warning and no content bytes,
whereas the same overrun on the EXTRA lane is the hard out-of-bounds
error. -/
theorem c7_content_soft_bounds (s : List Nat) (pos cm n k : Nat)
    (h1 : scanByte s 0x00 pos = some cm)
    (h2 : cm + 1 < s.length)
    (h3 : decodePushLen (s.drop (cm + 1)) = Except.ok (n, k))
    (h4 : s.length < cm + 1 + k + n) :
    contentStage s pos = Except.ok (ContentInfo.outOfBounds n) ∧
    parseScript c7ExtraScript = Except.error ParseErr.extraOutOfBounds := by
  constructor
  · unfold contentStage
    rw [h1]
    dsimp only
    rw [if_neg (by omega), h3]
    dsimp only
    rw [if_neg (by omega)]
  · decide

/-- C7 witness: the overrunning CONTENT lane of `c7Script` ends in the
out-of-bounds warning. -/
theorem c7_content_soft_bounds_witness :
    contentStage c7Script 10 = Except.ok (ContentInfo.outOfBounds 5) :=
  (c7_content_soft_bounds c7Script 10 10 5 1 (by decide) (by decide) (by decide) (by decide)).1

/-- C8: with all other required parameters truthy, an l2 address whose
byte length is not 20 (such as 19 or 21) fails with the address length
error before any script is produced; with a 20-byte address, a
signature whose byte length is not 64 (such as 63 or 65) fails with the
signature length error; and with exact lengths 20 and 64 neither
length error can be the result. -/
theorem c8_field_lengths (pk : List Nat) (cid : Nat) (l2 sig : List Nat) (tok : TokenDesc)
    (amt : Nat) (toA : String)
    (hcid : cid ≠ 0) (hamt : amt ≠ 0) (htoA : toA ≠ "") :
    (l2.length ≠ 20 →
      generateBridgeScript (mkParams pk cid l2 sig tok amt toA) =
        Except.error BuildErr.addrNot20) ∧
    (l2.length = 20 → sig.length ≠ 64 →
      generateBridgeScript (mkParams pk cid l2 sig tok amt toA) =
        Except.error BuildErr.sigNot64) ∧
    (l2.length = 20 → sig.length = 64 →
      generateBridgeScript (mkParams pk cid l2 sig tok amt toA) ≠
        Except.error BuildErr.addrNot20 ∧
      generateBridgeScript (mkParams pk cid l2 sig tok amt toA) ≠
        Except.error BuildErr.sigNot64) := by
  have hc : (cid == 0) = false := by simpa using hcid
  have ha : (amt == 0) = false := by simpa using hamt
  have ht : (toA == "") = false := by simpa using htoA
  refine ⟨fun h20 => ?_, fun h20 h64 => ?_, fun h20 h64 => ?_⟩
  · have h20' : (l2.length != 20) = true := by simpa using h20
    simp [generateBridgeScript, mkParams, hc, ha, ht, h20']
  · have h20' : (l2.length != 20) = false := by simpa using h20
    have h64' : (sig.length != 64) = true := by simpa using h64
    simp [generateBridgeScript, mkParams, hc, ha, ht, h20', h64']
  · have h20' : (l2.length != 20) = false := by simpa using h20
    have h64' : (sig.length != 64) = false := by simpa using h64
    have hred : generateBridgeScript (mkParams pk cid l2 sig tok amt toA) =
        match cborEncodeBlob 1 cid l2 sig with
        | none => Except.error BuildErr.cborUnsupported
        | some extra =>
          match buildEnvelopeSuffix extra (strBytes (buildKrc20TransferJSON tok amt toA)) with
          | Except.error e => Except.error e
          | Except.ok suffix => buildSingleSigRedeem pk suffix := by
      simp [generateBridgeScript, mkParams, hc, ha, ht, h20', h64']
    rw [hred]
    constructor <;> intro hcontra
    · split at hcontra
      · simp at hcontra
      · split at hcontra
        next e heq =>
          simp only [Except.error.injEq] at hcontra
          subst hcontra
          rcases buildEnvelopeSuffix_error_cases _ _ _ heq with h | h | h <;> simp at h
        next suf heq =>
          rcases buildSingleSigRedeem_error_cases _ _ _ hcontra with h | h | h <;> simp at h
    · split at hcontra
      · simp at hcontra
      · split at hcontra
        next e heq =>
          simp only [Except.error.injEq] at hcontra
          subst hcontra
          rcases buildEnvelopeSuffix_error_cases _ _ _ heq with h | h | h <;> simp at h
        next suf heq =>
          rcases buildSingleSigRedeem_error_cases _ _ _ hcontra with h | h | h <;> simp at h

/-- C8 witness: a 19-byte address is rejected with the address length
error, a 21-byte address likewise, and 63- or 65-byte signatures behind
a 20-byte address are rejected with the signature length error, while
exact lengths avoid both errors. -/
theorem c8_field_lengths_witness :
    generateBridgeScript (mkParams c1Pk 5 (List.replicate 19 1) c1Sig c1Tok 7 "k") =
      Except.error BuildErr.addrNot20 ∧
    generateBridgeScript (mkParams c1Pk 5 (List.replicate 21 1) c1Sig c1Tok 7 "k") =
      Except.error BuildErr.addrNot20 ∧
    generateBridgeScript (mkParams c1Pk 5 c1Addr (List.replicate 63 1) c1Tok 7 "k") =
      Except.error BuildErr.sigNot64 ∧
    generateBridgeScript (mkParams c1Pk 5 c1Addr (List.replicate 65 1) c1Tok 7 "k") =
      Except.error BuildErr.sigNot64 ∧
    generateBridgeScript (mkParams c1Pk 5 c1Addr c1Sig c1Tok 7 "k") ≠
      Except.error BuildErr.addrNot20 :=
  ⟨(c8_field_lengths c1Pk 5 (List.replicate 19 1) c1Sig c1Tok 7 "k"
      (by decide) (by decide) (by decide)).1 (by decide),
   (c8_field_lengths c1Pk 5 (List.replicate 21 1) c1Sig c1Tok 7 "k"
      (by decide) (by decide) (by decide)).1 (by decide),
   (c8_field_lengths c1Pk 5 c1Addr (List.replicate 63 1) c1Tok 7 "k"
      (by decide) (by decide) (by decide)).2.1 (by decide) (by decide),
   (c8_field_lengths c1Pk 5 c1Addr (List.replicate 65 1) c1Tok 7 "k"
      (by decide) (by decide) (by decide)).2.1 (by decide) (by decide),
   ((c8_field_lengths c1Pk 5 c1Addr c1Sig c1Tok 7 "k"
      (by decide) (by decide) (by decide)).2.2 (by decide) (by decide)).1⟩

/-- C4 witness: for the concrete valid input `c1Params` the builder
emits exactly the stated layout. -/
theorem c4_redeem_layout_witness :
    c1Script = (pkX c1Pk).length :: (pkX c1Pk ++ [0xac] ++
      ([0x00, 0x63, 0x07] ++ kasBytes ++ (0x51 :: pushFrame c4Extra) ++ [0x00] ++
        pushFrame (strBytes (buildKrc20TransferJSON c1Tok 100000000 "kaspa:qtest")) ++ [0x68])) :=
  c4_redeem_layout c1Pk 202555 c1Addr c1Sig c1Tok 100000000 "kaspa:qtest" c4Extra c1Script
    (by decide) (by decide)

/-- C9: EXTRA bytes whose first byte is not `0xb9` (so not classified
as the compact-binary map format) decode via the legacy fixed layout
when at least 29 bytes long — byte 0 the version, bytes 1-4 the
little-endian chain id, bytes 5-8 the little-endian bridge id, bytes
9-28 the 20-byte address — and are reported undecodable when shorter;
in either case the full parse still runs the CONTENT stage on the rest
of the script. -/
theorem c9_legacy_fallback (extra : List Nat) (hnot : extra.head? ≠ some 0xb9) :
    (29 ≤ extra.length →
      parseExtraRouting extra = RoutingInfo.legacy (extra.getD 0 0)
        (extra.getD 1 0 + 256 * extra.getD 2 0 + 65536 * extra.getD 3 0 +
          16777216 * extra.getD 4 0)
        (extra.getD 5 0 + 256 * extra.getD 6 0 + 65536 * extra.getD 7 0 +
          16777216 * extra.getD 8 0)
        ((extra.drop 9).take 20)) ∧
    (extra.length < 29 → parseExtraRouting extra = RoutingInfo.tooShort extra) ∧
    (∀ s pos, extraStage s = Except.ok (extra, pos) →
      parseScript s = (contentStage s pos).map (fun c => ⟨parseExtraRouting extra, c⟩)) := by
  have hb : (extra.head? == some 0xb9) = false := by simpa using hnot
  refine ⟨fun h29 => ?_, fun h29 => ?_, fun s pos hs => ?_⟩
  · simp [parseExtraRouting, hb, h29]
  · simp [parseExtraRouting, hb, not_le.mpr h29]
  · unfold parseScript
    rw [hs]
    cases hc : contentStage s pos <;> simp [hc, Except.map]

/-- C9 witness: the legacy decode of the 29-byte lane `[1..29]`, the
undecodable report for a 2-byte lane, and the content stage proceeding
after the too-short 1-byte lane of `c7Script`. -/
theorem c9_legacy_fallback_witness :
    parseExtraRouting c9Extra = RoutingInfo.legacy (c9Extra.getD 0 0)
        (c9Extra.getD 1 0 + 256 * c9Extra.getD 2 0 + 65536 * c9Extra.getD 3 0 +
          16777216 * c9Extra.getD 4 0)
        (c9Extra.getD 5 0 + 256 * c9Extra.getD 6 0 + 65536 * c9Extra.getD 7 0 +
          16777216 * c9Extra.getD 8 0)
        ((c9Extra.drop 9).take 20) ∧
    parseExtraRouting [1, 2] = RoutingInfo.tooShort [1, 2] ∧
    parseScript c7Script = (contentStage c7Script 10).map
      (fun c => ⟨parseExtraRouting [0xaa], c⟩) :=
  ⟨(c9_legacy_fallback c9Extra (by decide)).1 (by decide),
   (c9_legacy_fallback [1, 2] (by decide)).2.1 (by decide),
   (c9_legacy_fallback [0xaa] (by decide)).2.2 c7Script 10 (by decide)⟩

/-- C10: each falsy required parameter is rejected with its
missing-parameter error, in source order; in particular a present
`chainId` of 0 and a present `amount` of 0 are rejected exactly like an
absent parameter, so no redeem script is ever produced for them. -/
theorem c10_falsy_required (pk l2 sig : List Nat) (tok : TokenDesc) (amt cid : Nat)
    (toA : String) :
    generateBridgeScript ⟨none, some cid, some l2, some sig, some tok, some amt, some toA⟩ =
      Except.error (BuildErr.missingParam "publicKey") ∧
    generateBridgeScript ⟨some pk, none, some l2, some sig, some tok, some amt, some toA⟩ =
      Except.error (BuildErr.missingParam "chainId") ∧
    generateBridgeScript (mkParams pk 0 l2 sig tok amt toA) =
      Except.error (BuildErr.missingParam "chainId") ∧
    (cid ≠ 0 →
      generateBridgeScript ⟨some pk, some cid, none, some sig, some tok, some amt, some toA⟩ =
        Except.error (BuildErr.missingParam "l2Address")) ∧
    (cid ≠ 0 →
      generateBridgeScript ⟨some pk, some cid, some l2, none, some tok, some amt, some toA⟩ =
        Except.error (BuildErr.missingParam "signatureRS")) ∧
    (cid ≠ 0 →
      generateBridgeScript ⟨some pk, some cid, some l2, some sig, none, some amt, some toA⟩ =
        Except.error (BuildErr.missingParam "token")) ∧
    (cid ≠ 0 →
      generateBridgeScript ⟨some pk, some cid, some l2, some sig, some tok, none, some toA⟩ =
        Except.error (BuildErr.missingParam "amount")) ∧
    (cid ≠ 0 → generateBridgeScript (mkParams pk cid l2 sig tok 0 toA) =
      Except.error (BuildErr.missingParam "amount")) ∧
    (cid ≠ 0 → amt ≠ 0 →
      generateBridgeScript ⟨some pk, some cid, some l2, some sig, some tok, some amt, none⟩ =
        Except.error (BuildErr.missingParam "to")) ∧
    (cid ≠ 0 → amt ≠ 0 → generateBridgeScript (mkParams pk cid l2 sig tok amt "") =
      Except.error (BuildErr.missingParam "to")) ∧
    (∀ cid2 amt2 : Nat, cid2 = 0 ∨ amt2 = 0 →
      ∀ out, generateBridgeScript (mkParams pk cid2 l2 sig tok amt2 toA) ≠ Except.ok out) := by
  refine ⟨?_, ?_, ?_, fun hcid => ?_, fun hcid => ?_, fun hcid => ?_, fun hcid => ?_,
    fun hcid => ?_, fun hcid hamt => ?_, fun hcid hamt => ?_,
    fun cid2 amt2 hz out hout => ?_⟩
  · simp [generateBridgeScript]
  · simp [generateBridgeScript]
  · simp [generateBridgeScript, mkParams]
  · have hc : (cid == 0) = false := by simpa using hcid
    simp [generateBridgeScript, hc]
  · have hc : (cid == 0) = false := by simpa using hcid
    simp [generateBridgeScript, hc]
  · have hc : (cid == 0) = false := by simpa using hcid
    simp [generateBridgeScript, hc]
  · have hc : (cid == 0) = false := by simpa using hcid
    simp [generateBridgeScript, hc]
  · have hc : (cid == 0) = false := by simpa using hcid
    simp [generateBridgeScript, mkParams, hc]
  · have hc : (cid == 0) = false := by simpa using hcid
    have ha : (amt == 0) = false := by simpa using hamt
    simp [generateBridgeScript, hc, ha]
  · have hc : (cid == 0) = false := by simpa using hcid
    have ha : (amt == 0) = false := by simpa using hamt
    simp [generateBridgeScript, mkParams, hc, ha]
  · rcases hz with rfl | rfl
    · simp [generateBridgeScript, mkParams] at hout
    · simp only [generateBridgeScript, mkParams] at hout
      split at hout
      · simp at hout
      · simp at hout

/-- C10 witness: the zero-valued and absent parameters at concrete
inputs. -/
theorem c10_falsy_required_witness :
    generateBridgeScript (mkParams c1Pk 0 c1Addr c1Sig c1Tok 5 "k") =
      Except.error (BuildErr.missingParam "chainId") ∧
    generateBridgeScript (mkParams c1Pk 9 c1Addr c1Sig c1Tok 0 "k") =
      Except.error (BuildErr.missingParam "amount") ∧
    generateBridgeScript (mkParams c1Pk 9 c1Addr c1Sig c1Tok 5 "") =
      Except.error (BuildErr.missingParam "to") :=
  ⟨(c10_falsy_required c1Pk c1Addr c1Sig c1Tok 5 9 "k").2.2.1,
   (c10_falsy_required c1Pk c1Addr c1Sig c1Tok 0 9 "k").2.2.2.2.2.2.2.1 (by decide),
   (c10_falsy_required c1Pk c1Addr c1Sig c1Tok 5 9 "k").2.2.2.2.2.2.2.2.2.1
      (by decide) (by decide)⟩

end KatBridge
